import Mathlib

/-
Verification development for the Table Comment Notepad plugin
(source files: dialog.py, plugin.py).

The Python module dialog.py is shallowly embedded below:
pure string manipulation becomes Lean functions over `String`
(whose 4.14 model is a list of characters, so everything is
executable and kernel-reducible), the SQLite-backed GeoPackage
metadata table `gpkg_contents` becomes an association list of
rows, fallible operations (Python exceptions) become
`Except String`, and the stateful dialog methods become explicit
state-passing functions that additionally return the list of
backend side effects they perform.

Modelling conventions, stated once:
  - Python `str.strip` / `str.lower` are modelled over ASCII
    (SQLite `lower()` is ASCII-only as well; no claim involves
    non-ASCII text).
  - `os.path.abspath` is environment-dependent (current working
    directory); it is modelled as the identity, which no claim
    depends on.
  - Backend round trips (`executeSql`, sqlite queries) are passed
    in as explicit result values of type `Except String _`:
    `Except.error e` models the call raising an exception with
    message `e`.
  - The Qt message boxes are modelled as fields of the dialog
    state (`warning`, `info`, `errorBox`).
-/

namespace TCN

/-! ## Python-style string primitives (over the character list model) -/

/-- Does the first list occur at the head of the second list? -/
def leadsWith : List Char → List Char → Bool
  | [], _ => true
  | _ :: _, [] => false
  | a :: as, b :: bs => a == b && leadsWith as bs

/-- Does the first list occur contiguously anywhere in the second list? -/
def occursIn (needle : List Char) : List Char → Bool
  | [] => leadsWith needle []
  | b :: bs => leadsWith needle (b :: bs) || occursIn needle bs

/-- Python `needle in hay` for strings. -/
def strContains (hay needle : String) : Bool := occursIn needle.data hay.data

/-- Python `s.startswith(p)`. -/
def py_startswith (s p : String) : Bool := leadsWith p.data s.data

/-- Python `s.endswith(p)`. -/
def py_endswith (s p : String) : Bool := leadsWith p.data.reverse s.data.reverse

/-- Python `s.lower()` (ASCII case folding, matching SQLite `lower()`). -/
def py_lower (s : String) : String := ⟨s.data.map Char.toLower⟩

/-- Python `s.strip()`. -/
def py_strip (s : String) : String :=
  ⟨((s.data.dropWhile Char.isWhitespace).reverse.dropWhile Char.isWhitespace).reverse⟩

/-- Python emptiness test on a string (`not s`). -/
def py_isempty (s : String) : Bool := s.data.isEmpty

/-- Python truthiness of an optional string: `None` and `""` are falsy. -/
def pyTruthy (o : Option String) : Bool := !(o.getD "").data.isEmpty

/-- Python `a or b` on optional strings: the first operand if truthy, else the second. -/
def pyOrOpt (a b : Option String) : Option String := if pyTruthy a then a else b

/-- Python `x if x else ""` on an optional string (used for nullable query results). -/
def py_text_or_empty : Option String → String
  | none => ""
  | some s => if s = "" then "" else s

/-- POSIX `os.path.basename`: the part after the last slash. -/
def os_path_basename (p : String) : String :=
  ⟨(p.data.reverse.takeWhile (fun c => c != '/')).reverse⟩

/-- Modelled as the identity: `os.path.abspath` depends on the process working
directory, which is outside the embedded core; no claim depends on its value. -/
def os_path_abspath (p : String) : String := p

/-! ## The identifier regex `_ident_rx = ^[A-Za-z_][A-Za-z0-9_$]*$` (dialog.py line 11) -/

/-- First character class of `_ident_rx`: `[A-Za-z_]`. -/
def isIdentStart (c : Char) : Bool := c.isAlpha || c == '_'

/-- Continuation character class of `_ident_rx`: `[A-Za-z0-9_$]`. -/
def isIdentCont (c : Char) : Bool := c.isAlpha || c.isDigit || c == '_' || c == '$'

/-- Whether `_ident_rx` matches the whole string. -/
def matchesIdent (s : String) : Bool :=
  match s.data with
  | [] => false
  | c :: cs => isIdentStart c && cs.all isIdentCont

/-! ## Layer handles (the decoded addressing information the code consults) -/

/-- QGIS provider type of a layer, as returned by `lyr.providerType()`. -/
inductive Provider
  | postgres
  | ogr
  | gdal
  | other
deriving DecidableEq

/-- Result of `decodeUri` through the ogr provider metadata: the fields
`path`, `layerName` and `layer` that `_gpkg_path_and_table` consults
(`none` models an absent dictionary key). -/
structure OgrParts where
  path : Option String
  layerName : Option String
  layer : Option String
deriving DecidableEq

/-- The `QgsDataSourceUri` components consulted by the PostgreSQL helpers;
each accessor yields `""` when the component is absent (`uri.schema() or ""`). -/
structure PgUri where
  schema : String
  table : String
  host : String
  port : String
  database : String
deriving DecidableEq

/-- An opaque in-memory layer handle, reduced to the data the embedded core
actually reads from it. -/
structure Layer where
  id : String
  provider : Provider
  ogr : OgrParts
  pg : PgUri
deriving DecidableEq

/-- `_is_postgres_layer`: provider type equals `postgres`. -/
def is_postgres_layer (l : Layer) : Bool :=
  match l.provider with
  | Provider.postgres => true
  | _ => false

/-- Helper for `_is_gpkg_layer`: provider is `ogr` or `gdal`. -/
def is_ogr_or_gdal : Provider → Bool
  | Provider.ogr => true
  | Provider.gdal => true
  | _ => false

/-- `_is_gpkg_layer`: ogr/gdal provider whose decoded lower-cased path ends in `.gpkg`. -/
def is_gpkg_layer (l : Layer) : Bool :=
  is_ogr_or_gdal l.provider && py_endswith (py_lower (l.ogr.path.getD "")) ".gpkg"

/-- `_gpkg_path_and_table`: path from the decoded uri, table from `layerName or layer`;
raises (here: `Except.error`) when either is missing or empty. -/
def gpkg_path_and_table (l : Layer) : Except String (String × String) :=
  let path := l.ogr.path
  let table := pyOrOpt l.ogr.layerName l.ogr.layer
  if pyTruthy path && pyTruthy table then Except.ok (path.getD "", table.getD "")
  else Except.error "Could not parse GPKG path/table from layer source."

/-! ## GeoPackage relation-level backend (`gpkg_contents`) -/

/-- The `gpkg_contents` table: one row per table name with a nullable
`description` column. SQLite text comparison under the default BINARY
collation is case-sensitive, which the model reflects by comparing names
with plain equality. -/
abbrev GpkgContents := List (String × Option String)

/-- `_gpkg_fetch_comment`: `SELECT description FROM gpkg_contents WHERE table_name = ?`
followed by `row[0] if row and row[0] else ""` on the first matching row. -/
def gpkg_fetch_comment (store : GpkgContents) (table : String) : String :=
  match store with
  | [] => ""
  | row :: rest =>
    if row.1 = table then py_text_or_empty row.2 else gpkg_fetch_comment rest table

/-- `_gpkg_set_comment`: `UPDATE gpkg_contents SET description = ? WHERE table_name = ?`,
storing NULL when the text is empty. An UPDATE touches exactly the rows whose
`table_name` matches; it never inserts. -/
def gpkg_set_comment (store : GpkgContents) (table text : String) : GpkgContents :=
  store.map (fun row =>
    if row.1 = table then (row.1, if text = "" then none else some text) else row)

/-- `_gpkg__canonical_table`:
`SELECT table_name FROM gpkg_contents WHERE lower(table_name)=lower(?)`,
returning `row[0] if row and row[0] else table` on the first matching row. -/
def gpkg_canonical_table (store : GpkgContents) (table : String) : String :=
  match store with
  | [] => table
  | row :: rest =>
    if py_lower row.1 = py_lower table then (if row.1 = "" then table else row.1)
    else gpkg_canonical_table rest table

/-! ## PostgreSQL helpers -/

/-- `_quote_ident`: double every `"` and wrap in double quotes. -/
def sql_escape_quotes (s : String) : String :=
  ⟨s.data.foldr (fun c acc => if c == '"' then '"' :: '"' :: acc else c :: acc) []⟩

/-- `_quote_ident`. -/
def quote_ident (name : String) : String := "\"" ++ sql_escape_quotes name ++ "\""

/-- `_qualify`: `"schema"."table"`. -/
def qualify (schema table : String) : String := quote_ident schema ++ "." ++ quote_ident table

/-- `_pick_dollar_tag`: the first of `$$`, `$q$`, `$qq$`, `$zzz$` not occurring in
the text; otherwise a tag built from six characters of a fresh uuid. The uuid
draw is modelled by the explicit `rand` argument. -/
def pick_dollar_tag (text : String) (rand : String) : String :=
  if !(strContains text "$$") then "$$"
  else if !(strContains text "$q$") then "$q$"
  else if !(strContains text "$qq$") then "$qq$"
  else if !(strContains text "$zzz$") then "$zzz$"
  else "$" ++ rand ++ "$"

/-- The first fixed candidate delimiter absent from the text, if any. -/
def first_absent_fixed (s : String) : Option String :=
  if !(strContains s "$$") then some "$$"
  else if !(strContains s "$q$") then some "$q$"
  else if !(strContains s "$qq$") then some "$qq$"
  else if !(strContains s "$zzz$") then some "$zzz$"
  else none

/-- Result rows of `conn.executeSql`: a list of rows, each a list of nullable cells. -/
abbrev PgRows := List (List (Option String))

/-- Python `rows[0][0] if rows and rows[0] else None`. -/
def rows_head_cell (rows : PgRows) : Option String :=
  match rows with
  | [] => none
  | r :: _ =>
    match r with
    | [] => none
    | c :: _ => c

/-- The `relkind -> COMMENT ON keyword` mapping of `_pg_comment_keyword`,
with the `mapping.get(relkind, 'TABLE')` default. -/
def relkind_keyword (relkind : Option String) : String :=
  match relkind with
  | none => "TABLE"
  | some c =>
    if c = "r" then "TABLE"
    else if c = "p" then "TABLE"
    else if c = "v" then "VIEW"
    else if c = "m" then "MATERIALIZED VIEW"
    else if c = "f" then "FOREIGN TABLE"
    else "TABLE"

/-- `_pg_comment_keyword`: runs the relkind lookup (its outcome is the `lookup`
argument) and maps the resulting code; an exception in the lookup propagates. -/
def pg_comment_keyword (lookup : Except String PgRows) : Except String String :=
  match lookup with
  | Except.error e => Except.error e
  | Except.ok rows => Except.ok (relkind_keyword (rows_head_cell rows))

/-- `_pg_type_label`: bracketed keyword, with an internal catch-all returning `""`. -/
def pg_type_label (lookup : Except String PgRows) : String :=
  match pg_comment_keyword lookup with
  | Except.error _ => ""
  | Except.ok kw => "[" ++ kw ++ "]"

/-- `_set_comment`: classify the relation (via the relkind lookup outcome) to pick
the statement keyword, then build the `COMMENT ON` statement, delimiting a
non-empty body with `_pick_dollar_tag`. An exception in the lookup propagates
and fails the whole write. -/
def set_comment (schema table : String) (lookup : Except String PgRows)
    (text : String) (rand : String) : Except String String :=
  match pg_comment_keyword lookup with
  | Except.error e => Except.error e
  | Except.ok kw =>
    let qt := qualify schema table
    if text = "" then Except.ok ("COMMENT ON " ++ kw ++ " " ++ qt ++ " IS NULL;")
    else
      let tag := pick_dollar_tag text rand
      Except.ok ("COMMENT ON " ++ kw ++ " " ++ qt ++ " IS " ++ tag ++ text ++ tag ++ ";")

/-- The `attname` comparison fragment of the SQL built by `_pg_fetch_column_comment`:
`{_pick_dollar_tag(col)}{col}{_pick_dollar_tag(col)}`. The two delimiter
computations are separate calls, modelled by two independent uuid draws. -/
def pg_fetch_column_attname_literal (col r1 r2 : String) : String :=
  pick_dollar_tag col r1 ++ col ++ pick_dollar_tag col r2

/-- `_pg_is_query_layer`: a Postgres layer with no single base relation.
The function body cannot raise on the decoded components, so the enclosing
catch-all is not represented. -/
def pg_is_query_layer (l : Layer) : Bool :=
  if !(is_postgres_layer l) then false
  else
    let schema := py_strip l.pg.schema
    let table := py_strip l.pg.table
    if py_isempty schema || py_isempty table then true
    else
      let tlow := py_lower table
      if py_startswith table "(" || strContains tlow "select"
          || strContains tlow " join " || strContains tlow " from " then true
      else if !(matchesIdent schema) || !(matchesIdent table) then true
      else false

/-- Modelled from the claim text of C4 (the spec side of the refinement):
query-only when schema or table is empty, or the table contains a parenthesis,
whitespace, or a case-insensitive select/join/from substring, or either
component fails the claimed identifier check (letters, digits, underscore and
dollar, not leading with a digit). -/
def claim_query_only (schema table : String) : Bool :=
  py_isempty schema || py_isempty table
    || strContains table "(" || table.data.any Char.isWhitespace
    || strContains (py_lower table) "select"
    || strContains (py_lower table) "join"
    || strContains (py_lower table) "from"
    || !(claim_ident schema) || !(claim_ident table)
where
  claim_ident (s : String) : Bool :=
    match s.data with
    | [] => true
    | c :: cs =>
      !(c.isDigit) && (c :: cs).all (fun d => d.isAlpha || d.isDigit || d == '_' || d == '$')

/-- The amended query-only condition (spec side of the corrected C4), written as
a flat disjunction over the trimmed components: empty schema or table, a table
starting with a parenthesis, a lower-cased table containing `select`, or
` join ` or ` from ` with the surrounding spaces, or either component failing
the `_ident_rx` identifier syntax. -/
def amended_query_only (l : Layer) : Bool :=
  is_postgres_layer l &&
    (py_isempty (py_strip l.pg.schema) || py_isempty (py_strip l.pg.table)
      || py_startswith (py_strip l.pg.table) "("
      || strContains (py_lower (py_strip l.pg.table)) "select"
      || strContains (py_lower (py_strip l.pg.table)) " join "
      || strContains (py_lower (py_strip l.pg.table)) " from "
      || !(matchesIdent (py_strip l.pg.schema))
      || !(matchesIdent (py_strip l.pg.table)))

/-! ## Relation Identity Resolver -/

/-- `RelationKey`: the canonical backend-tagged identity of a physical relation
(the tuples built by `_relation_key_from_layer`). -/
inductive RelationKey
  | pg (host port database schema table : String)
  | gpkg (path table : String)
deriving DecidableEq

/-- Host normalization performed by `_relation_key_from_layer`:
strip, lower, and map `localhost` to the loopback literal. -/
def normalize_host (h : String) : String :=
  let hl := py_lower (py_strip h)
  if hl = "localhost" then "127.0.0.1" else hl

/-- `_relation_key_from_layer`: derive the relation key, or `Except.ok none` for
unsupported / query-only handles. The gpkg branch calls `_gpkg_path_and_table`
without a handler, so its exception propagates (`Except.error`). -/
def relation_key_from_layer (l : Layer) : Except String (Option RelationKey) :=
  if is_postgres_layer l && !(pg_is_query_layer l) then
    Except.ok (some (RelationKey.pg (normalize_host l.pg.host) l.pg.port
      (py_lower l.pg.database) l.pg.schema l.pg.table))
  else if is_gpkg_layer l then
    match gpkg_path_and_table l with
    | Except.ok pt => Except.ok (some (RelationKey.gpkg (os_path_abspath pt.1) pt.2))
    | Except.error e => Except.error e
  else Except.ok none

/-- The comparison performed per scanned layer inside `_layers_sharing_relation`:
equality of the scanned layer key with the input key, with the per-layer
`except Exception: pass` guard mapping exceptions to exclusion. -/
def shares_key (key : RelationKey) (x : Layer) : Bool :=
  match relation_key_from_layer x with
  | Except.ok k => decide (k = some key)
  | Except.error _ => false

/-- `_layers_sharing_relation`: the input layer key is computed without a handler
(so its exception propagates); a falsy key yields the handle alone; otherwise
every project layer with an equal key is collected, skipping layers whose own
key computation raises. -/
def layers_sharing_relation (l : Layer) (project : List Layer) :
    Except String (List Layer) :=
  match relation_key_from_layer l with
  | Except.error e => Except.error e
  | Except.ok none => Except.ok [l]
  | Except.ok (some key) => Except.ok (project.filter (shares_key key))

/-! ## Session Coordinator (dialog methods as state transformers) -/

/-- The selection target stored in `comboTarget` item data: the relation
sentinel or a column name. -/
inductive TargetKind
  | relation
  | column (col : String)
deriving DecidableEq

/-- A backend side effect performed by `_update_comment` / `_apply_abstract`:
the four comment writes and the per-layer Abstract metadata update. -/
inductive Effect
  | pgSet (schema table text : String)
  | gpkgSet (path table text : String)
  | pgSetCol (schema table col text : String)
  | gpkgSetCol (path table col text : String)
  | setAbstract (layerId : String) (text : String)
deriving DecidableEq

/-- Whether an effect is a comment write to the backing store
(Abstract fan-out is layer metadata, not a backend write). -/
def is_backend_write : Effect → Bool
  | Effect.setAbstract _ _ => false
  | _ => true

/-- Number of backend comment writes in an effect trace. -/
def write_count (effs : List Effect) : Nat := (effs.filter is_backend_write).length

/-- Python `dict.get(k, "")` over an association list with unique keys. -/
def lookupD {α : Type} [DecidableEq α] (m : List (α × String)) (k : α) : String :=
  match m with
  | [] => ""
  | p :: rest => if p.1 = k then p.2 else lookupD rest k

/-- Python `d[k] = v` over an association list with unique keys. -/
def setA {α : Type} [DecidableEq α] (m : List (α × String)) (k : α) (v : String) :
    List (α × String) :=
  match m with
  | [] => [(k, v)]
  | p :: rest => if p.1 = k then (k, v) :: rest else p :: setA rest k v

/-- The dialog state owned by `CommentNotepadDialog`: the editor text, the
status label, the three kinds of message box last shown, the two edit
baselines, and the enabled state of the two action buttons. -/
structure DialogState where
  editor : String
  status : String
  warning : Option String
  info : Option String
  errorBox : Option String
  original_by_layerid : List (String × String)
  original_column_by_layerid : List ((String × String) × String)
  btnUpdateEnabled : Bool
  btnRevertEnabled : Bool
deriving DecidableEq

/-- The query-layer guard applied to the current layer (which may be absent). -/
def lo_is_query : Option Layer → Bool
  | none => false
  | some l => is_postgres_layer l && pg_is_query_layer l

/-- `_load_selected`: load the relation-level comment of the current layer.
`fetchR` is the outcome of the backend fetch (connection acquisition included);
`relkindRows` is the outcome of the relkind lookup used by `_pg_type_label`.
The trailing re-dispatch to `_load_target` when a column row is selected in the
target combo is UI plumbing and not represented. -/
def load_selected (lo : Option Layer) (fetchR : Except String String)
    (relkindRows : Except String PgRows) (st : DialogState) : DialogState :=
  if lo_is_query lo then
    { st with editor := "",
              status := "Unsupported: Postgres query layers (no single base relation).",
              btnUpdateEnabled := false, btnRevertEnabled := false }
  else
    let st := { st with btnUpdateEnabled := true, btnRevertEnabled := true }
    match lo with
    | none => { st with editor := "", status := "No compatible layers loaded." }
    | some l =>
      let cw : String × String :=
        if is_postgres_layer l then
          match fetchR with
          | Except.ok c =>
            (c, "PG " ++ pg_type_label relkindRows ++ " " ++ l.pg.schema ++ "." ++ l.pg.table)
          | Except.error e => ("", "Load error: " ++ e)
        else if is_gpkg_layer l then
          match gpkg_path_and_table l with
          | Except.error e => ("", "Load error: " ++ e)
          | Except.ok pt =>
            match fetchR with
            | Except.ok c => (c, "GPKG " ++ os_path_basename pt.1 ++ "::" ++ pt.2)
            | Except.error e => ("", "Load error: " ++ e)
        else ("", "Unsupported layer")
      { st with editor := cw.1,
                status := if cw.2 = "" then "Loaded" else "Loaded " ++ cw.2,
                original_by_layerid := setA st.original_by_layerid l.id cw.1 }

/-- `_load_target`: load the comment of the current target. The relation
sentinel re-enters `_load_selected`; a column target loads the column comment
and records the column baseline. The `comboTarget.count() == 0` early return
and the sync checkbox toggle are UI plumbing and not represented. -/
def load_target (lo : Option Layer) (target : TargetKind)
    (fetchR : Except String String) (relkindRows : Except String PgRows)
    (st : DialogState) : DialogState :=
  match lo with
  | none => st
  | some l =>
    if is_postgres_layer l && pg_is_query_layer l then
      { st with editor := "",
                status := "Unsupported: Postgres query layers (no single base relation).",
                btnUpdateEnabled := false, btnRevertEnabled := false }
    else
      let st := { st with btnUpdateEnabled := true, btnRevertEnabled := true }
      match target with
      | TargetKind.relation => load_selected (some l) fetchR relkindRows st
      | TargetKind.column col =>
        let cw : String × String :=
          if is_postgres_layer l then
            match fetchR with
            | Except.ok c =>
              (c, "PG [COLUMN] " ++ l.pg.schema ++ "." ++ l.pg.table ++ "." ++ col)
            | Except.error e => ("", "Load error: " ++ e)
          else if is_gpkg_layer l then
            match gpkg_path_and_table l with
            | Except.error e => ("", "Load error: " ++ e)
            | Except.ok pt =>
              match fetchR with
              | Except.ok c =>
                (c, "GPKG [COLUMN] " ++ os_path_basename pt.1 ++ "::" ++ pt.2 ++ "." ++ col)
              | Except.error e => ("", "Load error: " ++ e)
          else ("", "Unsupported layer")
        { st with editor := cw.1,
                  status := if cw.2 = "" then "Loaded" else "Loaded " ++ cw.2,
                  original_column_by_layerid :=
                    setA st.original_column_by_layerid (l.id, col) cw.1 }

/-- `_apply_abstract`: with the sync checkbox off, do nothing; otherwise push
the text to the Abstract of every layer sharing the relation and return the
count. The sibling enumeration may raise, which propagates to the caller. -/
def apply_abstract (syncAll : Bool) (l : Layer) (project : List Layer)
    (txt : String) : Except String (Nat × List Effect) :=
  if !syncAll then Except.ok (0, [])
  else
    match layers_sharing_relation l project with
    | Except.error e => Except.error e
    | Except.ok targets =>
      Except.ok (targets.length, targets.map (fun t => Effect.setAbstract t.id txt))

/-- Tail of the relation-level branch of `_update_comment`: run the Abstract
fan-out (which happens before the no-change check), then either report
no changes or commit the new baseline. A raised fan-out lands in the
method-level handler (`Update failed`), after the write effects already
happened. -/
def update_relation_finish (l : Layer) (txt original whereS : String)
    (ws : List Effect) (syncAll : Bool) (project : List Layer)
    (st : DialogState) : DialogState × List Effect :=
  match apply_abstract syncAll l project txt with
  | Except.error e =>
    ({ st with status := "Update failed: " ++ e, errorBox := some e }, ws)
  | Except.ok nfx =>
    let effs := ws ++ nfx.2
    if txt = original then
      if nfx.1 ≠ 0 then
        ({ st with status := "No changes; Abstract synced to " ++ toString nfx.1 ++ " layer(s).",
                   info := some ("Abstract synced to " ++ toString nfx.1 ++ " layer(s).") },
         effs)
      else ({ st with status := "No changes." }, effs)
    else
      ({ st with original_by_layerid := setA st.original_by_layerid l.id txt,
                 status := "Updated " ++ whereS ++
                   (if nfx.1 ≠ 0 then "; Abstract synced to " ++ toString nfx.1 ++ " layer(s)."
                    else "."),
                 info := some "Comment updated." }, effs)

/-- Tail of the column-level branch of `_update_comment`: no fan-out; either
report no changes or commit the column baseline. -/
def update_column_finish (l : Layer) (col txt original whereS : String)
    (ws : List Effect) (st : DialogState) : DialogState × List Effect :=
  if txt = original then ({ st with status := "No changes." }, ws)
  else
    ({ st with original_column_by_layerid :=
                 setA st.original_column_by_layerid (l.id, col) txt,
               status := "Updated " ++ whereS ++ ".",
               info := some "Column comment updated." }, ws)

/-- `_update_comment`: guard against query layers, compare the editor text to
the baseline for the current target, perform the backend write only on a
difference, run the relation-level Abstract fan-out, and update the baseline.
Backend writes are recorded as effects and modelled as succeeding; connection
acquisition likewise (write-failure paths are outside the claims below). -/
def update_comment (lo : Option Layer) (target : TargetKind) (syncAll : Bool)
    (project : List Layer) (relkindRows : Except String PgRows)
    (st : DialogState) : DialogState × List Effect :=
  match lo with
  | none => (st, [])
  | some l =>
    if is_postgres_layer l && pg_is_query_layer l then
      ({ st with warning := some "PostgreSQL query layers (JOINs/subqueries) have no single base relation to comment." },
       [])
    else
      let txt := st.editor
      match target with
      | TargetKind.relation =>
        let original := lookupD st.original_by_layerid l.id
        if is_postgres_layer l then
          let ws : List Effect :=
            if txt ≠ original then [Effect.pgSet l.pg.schema l.pg.table txt] else []
          let whereS := "PG " ++ pg_type_label relkindRows ++ " "
            ++ l.pg.schema ++ "." ++ l.pg.table
          update_relation_finish l txt original whereS ws syncAll project st
        else if is_gpkg_layer l then
          match gpkg_path_and_table l with
          | Except.error e =>
            ({ st with status := "Update failed: " ++ e, errorBox := some e }, [])
          | Except.ok pt =>
            let ws : List Effect :=
              if txt ≠ original then [Effect.gpkgSet pt.1 pt.2 txt] else []
            let whereS := "GPKG " ++ os_path_basename pt.1 ++ "::" ++ pt.2
            update_relation_finish l txt original whereS ws syncAll project st
        else (st, [])
      | TargetKind.column col =>
        let original := lookupD st.original_column_by_layerid (l.id, col)
        if is_postgres_layer l then
          let ws : List Effect :=
            if txt ≠ original then [Effect.pgSetCol l.pg.schema l.pg.table col txt] else []
          let whereS := "PG [COLUMN] " ++ l.pg.schema ++ "." ++ l.pg.table ++ "." ++ col
          update_column_finish l col txt original whereS ws st
        else if is_gpkg_layer l then
          match gpkg_path_and_table l with
          | Except.error e =>
            ({ st with status := "Update failed: " ++ e, errorBox := some e }, [])
          | Except.ok pt =>
            let ws : List Effect :=
              if txt ≠ original then [Effect.gpkgSetCol pt.1 pt.2 col txt] else []
            let whereS := "GPKG [COLUMN] " ++ os_path_basename pt.1 ++ "::" ++ pt.2 ++ "." ++ col
            update_column_finish l col txt original whereS ws st
        else (st, [])

/-- The baseline the update logic consults for a given target. -/
def baseline_of (st : DialogState) (target : TargetKind) (l : Layer) : String :=
  match target with
  | TargetKind.relation => lookupD st.original_by_layerid l.id
  | TargetKind.column c => lookupD st.original_column_by_layerid (l.id, c)

/-! ## Concrete handles, stores and states used by counterexamples and witnesses -/

/-- An empty PG uri component set. -/
def emptyPg : PgUri := { schema := "", table := "", host := "", port := "", database := "" }

/-- Absent ogr decode fields. -/
def emptyOgr : OgrParts := { path := none, layerName := none, layer := none }

/-- A well-formed GeoPackage vector layer handle. -/
def gLayer : Layer :=
  { id := "L1", provider := Provider.ogr,
    ogr := { path := some "d.gpkg", layerName := some "t", layer := none },
    pg := emptyPg }

/-- A second handle onto the same GeoPackage table (a duplicate of `gLayer`
with a different layer id). -/
def gLayer2 : Layer := { gLayer with id := "L2" }

/-- A GeoPackage-classified handle whose decoded uri has no table name
(for example a single-raster gpkg opened through gdal), so
`_gpkg_path_and_table` raises. -/
def badGpkgLayer : Layer :=
  { id := "B1", provider := Provider.gdal,
    ogr := { path := some "raster.gpkg", layerName := none, layer := none },
    pg := emptyPg }

/-- A Postgres subquery layer (table source starts with a parenthesis). -/
def queryLayer : Layer :=
  { id := "Q1", provider := Provider.postgres, ogr := emptyOgr,
    pg := { schema := "public", table := "(select 1) as x", host := "h",
            port := "5432", database := "db" } }

/-- A Postgres layer whose table name contains `join` as a bare substring:
a plain identifier to the code, query-only to the claimed predicate. -/
def pgJoinLayer : Layer :=
  { id := "P1", provider := Provider.postgres, ogr := emptyOgr,
    pg := { schema := "public", table := "ajoinb", host := "h",
            port := "5432", database := "db" } }

/-- A dialog state with everything empty. -/
def emptyState : DialogState :=
  { editor := "", status := "", warning := none, info := none, errorBox := none,
    original_by_layerid := [], original_column_by_layerid := [],
    btnUpdateEnabled := true, btnRevertEnabled := true }

/-- State with pending editor text `hello` and no baselines. -/
def stW : DialogState := { emptyState with editor := "hello" }

/-- State whose editor text equals the recorded baseline for `gLayer`. -/
def stW2 : DialogState :=
  { emptyState with editor := "hello", original_by_layerid := [("L1", "hello")] }

/-- State with a previously recorded relation baseline for `gLayer`. -/
def stC1 : DialogState := { emptyState with original_by_layerid := [("L1", "old")] }

/-- A gpkg_contents store holding a single table stored as `Roads`. -/
def roadsStore : GpkgContents := [("Roads", some "hello")]

/-- A comment text containing all four fixed delimiters and the tag built from
the uuid draw `abcdef`. -/
def cexText : String := "$$ $q$ $qq$ $zzz$ $abcdef$"

/-! ## General helper lemmas -/

/-- Looking up the key just stored by `setA` yields the stored value. -/
theorem lookupD_setA {α : Type} [DecidableEq α] (m : List (α × String)) (k : α) (v : String) :
    lookupD (setA m k v) k = v := by
  induction m with
  | nil => simp [setA, lookupD]
  | cons p rest ih =>
    by_cases h : p.1 = k
    · simp [setA, h, lookupD]
    · simp [setA, h, lookupD, ih]

/-- Abstract fan-out effects contain no backend writes. -/
theorem write_count_abstract_map (xs : List Layer) (txt : String) :
    write_count (xs.map (fun t => Effect.setAbstract t.id txt)) = 0 := by
  induction xs with
  | nil => rfl
  | cons x xs ih => simp_all [write_count, is_backend_write, List.filter_cons]

/-- Backend write counting distributes over trace concatenation. -/
theorem write_count_append (a b : List Effect) :
    write_count (a ++ b) = write_count a + write_count b := by
  simp [write_count, List.filter_append]

/-- A GeoPackage-classified handle is never a Postgres handle. -/
theorem gpkg_not_pg (l : Layer) (h : is_gpkg_layer l = true) :
    is_postgres_layer l = false := by
  cases hp : l.provider <;> simp_all [is_gpkg_layer, is_postgres_layer, is_ogr_or_gdal]

/-- A supported, non-query handle with a decodable address always resolves to a key. -/
theorem relation_key_ok_of_supported (l : Layer)
    (hq : pg_is_query_layer l = false)
    (hsup : is_postgres_layer l = true
      ∨ (is_gpkg_layer l = true ∧ ∃ pt, gpkg_path_and_table l = Except.ok pt)) :
    ∃ key, relation_key_from_layer l = Except.ok (some key) := by
  rcases hsup with hpg | ⟨hg, pt, hdec⟩
  · refine ⟨RelationKey.pg (normalize_host l.pg.host) l.pg.port
      (py_lower l.pg.database) l.pg.schema l.pg.table, ?_⟩
    simp [relation_key_from_layer, hpg, hq]
  · have hnp := gpkg_not_pg l hg
    refine ⟨RelationKey.gpkg (os_path_abspath pt.1) pt.2, ?_⟩
    simp [relation_key_from_layer, hnp, hg, hdec]

/-- With a resolvable key, the Abstract fan-out never raises and its effects
contain no backend writes. -/
theorem apply_abstract_ok (syncAll : Bool) (l : Layer) (project : List Layer) (txt : String)
    (hkey : ∃ key, relation_key_from_layer l = Except.ok (some key)) :
    ∃ nfx, apply_abstract syncAll l project txt = Except.ok nfx ∧ write_count nfx.2 = 0 := by
  obtain ⟨key, hk⟩ := hkey
  cases syncAll with
  | false => exact ⟨(0, []), by simp [apply_abstract], by simp [write_count]⟩
  | true =>
    refine ⟨((project.filter (shares_key key)).length,
      (project.filter (shares_key key)).map (fun t => Effect.setAbstract t.id txt)), ?_, ?_⟩
    · unfold apply_abstract layers_sharing_relation
      rw [hk]
      simp
    · exact write_count_abstract_map _ _

/-- Layer-key comparison used by the sibling scan, characterized. -/
theorem shares_key_iff (key : RelationKey) (x : Layer) :
    shares_key key x = true ↔ relation_key_from_layer x = Except.ok (some key) := by
  unfold shares_key
  cases h : relation_key_from_layer x <;> simp [h]

/-- A nonempty prefixed string is never empty (status-message helper). -/
theorem append_ne_empty_left (a b : String) (ha : a.data ≠ []) : a ++ b ≠ "" := by
  intro h
  have hd := congrArg String.data h
  simp at hd
  exact ha hd.1

/-! ## C2 — GeoPackage relation-level case sensitivity -/

/-- Claim C2, refuted at a concrete store: with a table stored as `Roads`,
the relation-level fetch under the casing `roads` returns the empty string
instead of the stored comment, and the relation-level set under that casing
leaves the store unchanged (a silent no-op), while the case-insensitive
resolver (used only by the column-level operations) does resolve `roads`
to `Roads`. -/
theorem gpkg_case_mismatch_cex :
    gpkg_fetch_comment roadsStore "roads" = ""
    ∧ gpkg_fetch_comment roadsStore "Roads" = "hello"
    ∧ gpkg_set_comment roadsStore "roads" "x" = roadsStore
    ∧ gpkg_canonical_table roadsStore "roads" = "Roads" := by
  refine ⟨by decide, by decide, by decide, by decide⟩

/-- C2 (amended): the embedded-file relation-level operations
`_gpkg_fetch_comment` and `_gpkg_set_comment` match the table name exactly
(case-sensitively): a request under a casing with no exact match reads the
empty string and writes nothing — a silent no-op, though never a duplicate row
(the set operation preserves the row count and leaves rows with a different
name untouched). Case-insensitive resolution to the exact stored casing is
performed only by `_gpkg__canonical_table`, which the column-level operations
use: it returns the stored casing of the first (nonempty-named) row whose
lower-cased name matches. -/
theorem gpkg_relation_case_sensitivity (store : GpkgContents) (table text : String)
    (pre post : GpkgContents) (r : String × Option String) :
    (gpkg_set_comment store table text).length = store.length
    ∧ (∀ row ∈ store, row.1 ≠ table → row ∈ gpkg_set_comment store table text)
    ∧ ((∀ row ∈ store, row.1 ≠ table) →
        gpkg_fetch_comment store table = "" ∧ gpkg_set_comment store table text = store)
    ∧ ((∀ x ∈ pre, py_lower x.1 ≠ py_lower table) → py_lower r.1 = py_lower table →
        r.1 ≠ "" → gpkg_canonical_table (pre ++ r :: post) table = r.1) := by
  refine ⟨by simp [gpkg_set_comment], ?_, ?_, ?_⟩
  · intro row hmem hne
    have h2 := List.mem_map_of_mem
      (f := fun row : String × Option String =>
        if row.1 = table then (row.1, if text = "" then none else some text) else row) hmem
    simpa [gpkg_set_comment, hne] using h2
  · intro h
    induction store with
    | nil => simp [gpkg_fetch_comment, gpkg_set_comment]
    | cons row rest ih =>
      have h1 : row.1 ≠ table := h row (by simp)
      have h2 : ∀ x ∈ rest, x.1 ≠ table := fun x hx => h x (by simp [hx])
      obtain ⟨ih1, ih2⟩ := ih h2
      refine ⟨by simp [gpkg_fetch_comment, h1, ih1], ?_⟩
      simp only [gpkg_set_comment, List.map_cons] at ih2 ⊢
      simp [h1, ih2]
  · intro hpre hr hne
    induction pre with
    | nil => simp [gpkg_canonical_table, hr, hne]
    | cons x xs ih =>
      have hx : py_lower x.1 ≠ py_lower table := hpre x (by simp)
      simp only [List.cons_append, gpkg_canonical_table, hx, if_neg]
      exact ih (fun y hy => hpre y (by simp [hy]))

/-- Witness for the amended C2 at the `Roads` store: the mismatched-casing set
is a no-op with no duplicate row, and the canonical resolver finds `Roads`. -/
theorem gpkg_relation_case_sensitivity_witness :
    (gpkg_fetch_comment roadsStore "roads" = ""
      ∧ gpkg_set_comment roadsStore "roads" "x" = roadsStore)
    ∧ gpkg_canonical_table ([] ++ ("Roads", some "hello") :: []) "roads" = "Roads" :=
  ⟨(gpkg_relation_case_sensitivity roadsStore "roads" "x" [] []
      ("Roads", some "hello")).2.2.1 (by decide),
   (gpkg_relation_case_sensitivity roadsStore "roads" "x" [] []
      ("Roads", some "hello")).2.2.2 (by decide) (by decide) (by decide)⟩

/-! ## C3 — PostgreSQL relation classification before writes -/

/-- Claim C3, refuted at a concrete input: when the relation-kind lookup
raises (here: a connection reset), `_set_comment` propagates the error and
the whole write fails, whereas a lookup that merely returns no rows does fall
back to the TABLE keyword. -/
theorem pg_classify_error_fails_write_cex :
    set_comment "public" "roads" (Except.error "connection reset") "hi" "abc123"
      = Except.error "connection reset"
    ∧ set_comment "public" "roads" (Except.ok []) "hi" "abc123"
      = Except.ok "COMMENT ON TABLE \"public\".\"roads\" IS $$hi$$;" := by
  exact ⟨rfl, rfl⟩

/-- C3 (amended): every relation-level write classifies the relation first and
embeds the classification keyword in the generated statement; a lookup that
returns no rows or an unrecognized relkind code falls back to the TABLE
keyword; but a lookup that raises propagates its error and fails the whole
write operation. -/
theorem pg_classify_fallback_amended :
    relkind_keyword none = "TABLE"
    ∧ (∀ c, c ≠ "r" → c ≠ "p" → c ≠ "v" → c ≠ "m" → c ≠ "f" →
        relkind_keyword (some c) = "TABLE")
    ∧ (∀ rows, pg_comment_keyword (Except.ok rows)
        = Except.ok (relkind_keyword (rows_head_cell rows)))
    ∧ (∀ schema table text rand rows, text ≠ "" →
        set_comment schema table (Except.ok rows) text rand
          = Except.ok ("COMMENT ON " ++ relkind_keyword (rows_head_cell rows) ++ " "
              ++ qualify schema table ++ " IS " ++ pick_dollar_tag text rand ++ text
              ++ pick_dollar_tag text rand ++ ";"))
    ∧ (∀ schema table text rand e,
        set_comment schema table (Except.error e) text rand = Except.error e) := by
  refine ⟨rfl, ?_, fun rows => rfl, ?_, fun _ _ _ _ _ => rfl⟩
  · intro c h1 h2 h3 h4 h5
    simp [relkind_keyword, h1, h2, h3, h4, h5]
  · intro schema table text rand rows ht
    simp [set_comment, pg_comment_keyword, ht]

/-- Witness for the amended C3: an unrecognized relkind code (`x`) still
classifies as TABLE, so the write proceeds with the TABLE keyword. -/
theorem pg_classify_fallback_witness :
    relkind_keyword (some "x") = "TABLE"
    ∧ set_comment "public" "roads" (Except.ok [[some "x"]]) "hi" "abc123"
      = Except.ok ("COMMENT ON " ++ relkind_keyword (rows_head_cell [[some "x"]]) ++ " "
          ++ qualify "public" "roads" ++ " IS " ++ pick_dollar_tag "hi" "abc123" ++ "hi"
          ++ pick_dollar_tag "hi" "abc123" ++ ";") :=
  ⟨pg_classify_fallback_amended.2.1 "x" (by decide) (by decide) (by decide) (by decide) (by decide),
   pg_classify_fallback_amended.2.2.2.1 "public" "roads" "hi" "abc123" [[some "x"]] (by decide)⟩

/-! ## C8 — delimiter selection -/

/-- Claim C8, refuted at a concrete input: for a text containing all four
fixed candidates together with the tag built from the uuid draw `abcdef`,
the routine returns that tag even though it occurs in the text — the random
fallback is produced without any absence check. -/
theorem pick_tag_collision_cex :
    strContains cexText "$$" = true ∧ strContains cexText "$q$" = true
    ∧ strContains cexText "$qq$" = true ∧ strContains cexText "$zzz$" = true
    ∧ pick_dollar_tag cexText "abcdef" = "$abcdef$"
    ∧ strContains cexText (pick_dollar_tag cexText "abcdef") = true := by
  refine ⟨by decide, by decide, by decide, by decide, by decide, by decide⟩

/-- C8 (amended): the routine tries the fixed candidates in order; for every
text containing the first three but not `$zzz$` the chosen delimiter is
`$zzz$`, which does not occur in the text; when the text contains all four
fixed candidates the routine returns the uuid-based tag without checking it
against the text (so a collision is possible, as the counterexample shows). -/
theorem pick_tag_amended (t r : String)
    (h1 : strContains t "$$" = true) (h2 : strContains t "$q$" = true)
    (h3 : strContains t "$qq$" = true) :
    (strContains t "$zzz$" = false →
      pick_dollar_tag t r = "$zzz$" ∧ strContains t (pick_dollar_tag t r) = false)
    ∧ (strContains t "$zzz$" = true → pick_dollar_tag t r = "$" ++ r ++ "$") := by
  constructor
  · intro h4
    constructor <;> simp [pick_dollar_tag, h1, h2, h3, h4]
  · intro h4
    simp [pick_dollar_tag, h1, h2, h3, h4]

/-- Witness for the amended C8 on a text containing the first three fixed
candidates but not `$zzz$`. -/
theorem pick_tag_amended_witness :
    pick_dollar_tag "$$ $q$ $qq$ x" "abcdef" = "$zzz$"
    ∧ strContains "$$ $q$ $qq$ x" (pick_dollar_tag "$$ $q$ $qq$ x" "abcdef") = false :=
  (pick_tag_amended "$$ $q$ $qq$ x" "abcdef" (by decide) (by decide) (by decide)).1 (by decide)

/-! ## C10 — delimiter determinism -/

/-- Claim C10: when some fixed candidate is absent from the string, the
delimiter choice is independent of the uuid draw and equals the first absent
fixed candidate, so the two separately computed delimiters embedded around the
column name in `_pg_fetch_column_comment` coincide; when all four fixed
candidates occur, two calls may return different random tags. -/
theorem pick_tag_deterministic :
    (∀ col r1 r2, (strContains col "$$" = false ∨ strContains col "$q$" = false
        ∨ strContains col "$qq$" = false ∨ strContains col "$zzz$" = false) →
      pick_dollar_tag col r1 = pick_dollar_tag col r2
      ∧ some (pick_dollar_tag col r1) = first_absent_fixed col
      ∧ pg_fetch_column_attname_literal col r1 r2
          = pick_dollar_tag col r1 ++ col ++ pick_dollar_tag col r1)
    ∧ (∃ s r1 r2, strContains s "$$" = true ∧ strContains s "$q$" = true
        ∧ strContains s "$qq$" = true ∧ strContains s "$zzz$" = true
        ∧ pick_dollar_tag s r1 ≠ pick_dollar_tag s r2) := by
  constructor
  · intro col r1 r2 h
    cases h1 : strContains col "$$" <;> cases h2 : strContains col "$q$" <;>
      cases h3 : strContains col "$qq$" <;> cases h4 : strContains col "$zzz$" <;>
      simp [pick_dollar_tag, first_absent_fixed, pg_fetch_column_attname_literal,
        h1, h2, h3, h4]
    all_goals simp [h1, h2, h3, h4] at h
  · exact ⟨"$$ $q$ $qq$ $zzz$", "aaaaaa", "bbbbbb",
      by decide, by decide, by decide, by decide, by decide⟩

/-- Witness for C10 at the column name `geom` and two distinct uuid draws. -/
theorem pick_tag_deterministic_witness :
    pick_dollar_tag "geom" "aaaaaa" = pick_dollar_tag "geom" "bbbbbb"
    ∧ some (pick_dollar_tag "geom" "aaaaaa") = first_absent_fixed "geom"
    ∧ pg_fetch_column_attname_literal "geom" "aaaaaa" "bbbbbb"
        = pick_dollar_tag "geom" "aaaaaa" ++ "geom" ++ pick_dollar_tag "geom" "aaaaaa" :=
  pick_tag_deterministic.1 "geom" "aaaaaa" "bbbbbb" (Or.inl (by decide))

/-! ## C9 — GeoPackage relation comment round trip -/

/-- Claim C9: on the embedded-file backend, writing a relation comment and
immediately reading it back returns exactly the written text for every text,
the empty string included (it is stored as NULL and read back as the empty
string), provided the table has a row in `gpkg_contents`. -/
theorem gpkg_round_trip (store : GpkgContents) (table T : String)
    (h : ∃ row ∈ store, row.1 = table) :
    gpkg_fetch_comment (gpkg_set_comment store table T) table = T := by
  induction store with
  | nil => simp at h
  | cons row rest ih =>
    by_cases hr : row.1 = table
    · by_cases hT : T = "" <;>
        simp [gpkg_set_comment, gpkg_fetch_comment, hr, hT, py_text_or_empty]
    · obtain ⟨x, hx, hx1⟩ := h
      rcases List.mem_cons.mp hx with rfl | htail
      · exact absurd hx1 hr
      · simp only [gpkg_set_comment, List.map_cons, gpkg_fetch_comment]
        rw [if_neg (by simp [hr])]
        exact ih ⟨x, htail, hx1⟩

/-- Witness for C9: the end-to-end `parcels` scenario (set then fetch), for a
nonempty text and for the empty text. -/
theorem gpkg_round_trip_witness :
    gpkg_fetch_comment (gpkg_set_comment [("parcels", none)] "parcels" "Tax parcels") "parcels"
      = "Tax parcels"
    ∧ gpkg_fetch_comment (gpkg_set_comment [("parcels", some "Tax parcels")] "parcels" "") "parcels"
      = "" :=
  ⟨gpkg_round_trip [("parcels", none)] "parcels" "Tax parcels"
      ⟨("parcels", none), by simp, rfl⟩,
   gpkg_round_trip [("parcels", some "Tax parcels")] "parcels" ""
      ⟨("parcels", some "Tax parcels"), by simp, rfl⟩⟩

/-! ## Coordinator step lemmas -/

/-- Behaviour of the relation-level update tail, given that the fan-out
does not raise. -/
theorem update_relation_finish_spec (l : Layer) (txt original whereS : String)
    (ws : List Effect) (syncAll : Bool) (project : List Layer) (st : DialogState)
    (hok : ∃ nfx, apply_abstract syncAll l project txt = Except.ok nfx
      ∧ write_count nfx.2 = 0) :
    write_count (update_relation_finish l txt original whereS ws syncAll project st).2
        = write_count ws
    ∧ (update_relation_finish l txt original whereS ws syncAll project st).1.editor = st.editor
    ∧ (txt = original →
        (update_relation_finish l txt original whereS ws syncAll project st).1.original_by_layerid
          = st.original_by_layerid)
    ∧ (txt ≠ original →
        (update_relation_finish l txt original whereS ws syncAll project st).1.original_by_layerid
          = setA st.original_by_layerid l.id txt)
    ∧ (update_relation_finish l txt original whereS ws syncAll
        project st).1.original_column_by_layerid = st.original_column_by_layerid := by
  obtain ⟨nfx, hok, hwfx⟩ := hok
  unfold update_relation_finish
  rw [hok]
  by_cases he : txt = original
  · by_cases hn : nfx.1 = 0 <;> simp [he, hn, write_count_append, hwfx]
  · by_cases hn : nfx.1 = 0 <;> simp [he, hn, write_count_append, hwfx]

/-- Behaviour of the column-level update tail. -/
theorem update_column_finish_spec (l : Layer) (col txt original whereS : String)
    (ws : List Effect) (st : DialogState) :
    (update_column_finish l col txt original whereS ws st).2 = ws
    ∧ (update_column_finish l col txt original whereS ws st).1.editor = st.editor
    ∧ (txt = original →
        (update_column_finish l col txt original whereS ws st).1.original_column_by_layerid
          = st.original_column_by_layerid)
    ∧ (txt ≠ original →
        (update_column_finish l col txt original whereS ws st).1.original_column_by_layerid
          = setA st.original_column_by_layerid (l.id, col) txt)
    ∧ (update_column_finish l col txt original whereS ws st).1.original_by_layerid
        = st.original_by_layerid := by
  by_cases he : txt = original <;> simp [update_column_finish, he]

/-- For a supported, non-query handle, the relation-level branch of
`_update_comment` reduces to the update tail with a single potential write. -/
theorem update_comment_relation_unfold (l : Layer) (syncAll : Bool)
    (project : List Layer) (rk : Except String PgRows) (st : DialogState)
    (hq : pg_is_query_layer l = false)
    (hsup : is_postgres_layer l = true
      ∨ (is_gpkg_layer l = true ∧ ∃ pt, gpkg_path_and_table l = Except.ok pt)) :
    ∃ w whereS, is_backend_write w = true ∧
      update_comment (some l) TargetKind.relation syncAll project rk st
        = update_relation_finish l st.editor (lookupD st.original_by_layerid l.id) whereS
            (if st.editor ≠ lookupD st.original_by_layerid l.id then [w] else [])
            syncAll project st := by
  rcases hsup with hpg | ⟨hg, pt, hdec⟩
  · refine ⟨Effect.pgSet l.pg.schema l.pg.table st.editor,
      "PG " ++ pg_type_label rk ++ " " ++ l.pg.schema ++ "." ++ l.pg.table, rfl, ?_⟩
    simp [update_comment, hpg, hq]
  · have hnp := gpkg_not_pg l hg
    refine ⟨Effect.gpkgSet pt.1 pt.2 st.editor,
      "GPKG " ++ os_path_basename pt.1 ++ "::" ++ pt.2, rfl, ?_⟩
    simp [update_comment, hnp, hq, hg, hdec]

/-- For a supported, non-query handle, the column-level branch of
`_update_comment` reduces to the column tail with a single potential write. -/
theorem update_comment_column_unfold (l : Layer) (col : String) (syncAll : Bool)
    (project : List Layer) (rk : Except String PgRows) (st : DialogState)
    (hq : pg_is_query_layer l = false)
    (hsup : is_postgres_layer l = true
      ∨ (is_gpkg_layer l = true ∧ ∃ pt, gpkg_path_and_table l = Except.ok pt)) :
    ∃ w whereS, is_backend_write w = true ∧
      update_comment (some l) (TargetKind.column col) syncAll project rk st
        = update_column_finish l col st.editor
            (lookupD st.original_column_by_layerid (l.id, col)) whereS
            (if st.editor ≠ lookupD st.original_column_by_layerid (l.id, col) then [w] else [])
            st := by
  rcases hsup with hpg | ⟨hg, pt, hdec⟩
  · refine ⟨Effect.pgSetCol l.pg.schema l.pg.table col st.editor,
      "PG [COLUMN] " ++ l.pg.schema ++ "." ++ l.pg.table ++ "." ++ col, rfl, ?_⟩
    simp [update_comment, hpg, hq]
  · have hnp := gpkg_not_pg l hg
    refine ⟨Effect.gpkgSetCol pt.1 pt.2 col st.editor,
      "GPKG [COLUMN] " ++ os_path_basename pt.1 ++ "::" ++ pt.2 ++ "." ++ col, rfl, ?_⟩
    simp [update_comment, hnp, hq, hg, hdec]

/-- One relation-level update step: the editor and column baselines are
untouched; with unchanged text there is no backend write and the relation
baseline is untouched; with changed text there is exactly one backend write
and the relation baseline becomes the editor text. -/
theorem update_relation_step (l : Layer) (syncAll : Bool) (project : List Layer)
    (rk : Except String PgRows) (st : DialogState)
    (hq : pg_is_query_layer l = false)
    (hsup : is_postgres_layer l = true
      ∨ (is_gpkg_layer l = true ∧ ∃ pt, gpkg_path_and_table l = Except.ok pt)) :
    (update_comment (some l) TargetKind.relation syncAll project rk st).1.editor = st.editor
    ∧ (update_comment (some l) TargetKind.relation syncAll
        project rk st).1.original_column_by_layerid = st.original_column_by_layerid
    ∧ (st.editor = lookupD st.original_by_layerid l.id →
        write_count (update_comment (some l) TargetKind.relation syncAll project rk st).2 = 0
        ∧ (update_comment (some l) TargetKind.relation syncAll
            project rk st).1.original_by_layerid = st.original_by_layerid)
    ∧ (st.editor ≠ lookupD st.original_by_layerid l.id →
        write_count (update_comment (some l) TargetKind.relation syncAll project rk st).2 = 1
        ∧ (update_comment (some l) TargetKind.relation syncAll
            project rk st).1.original_by_layerid
          = setA st.original_by_layerid l.id st.editor) := by
  have hkey := relation_key_ok_of_supported l hq hsup
  obtain ⟨w, whereS, hw, hunf⟩ := update_comment_relation_unfold l syncAll project rk st hq hsup
  obtain ⟨hwc, hed, hbe, hbn, hcol⟩ := update_relation_finish_spec l st.editor
    (lookupD st.original_by_layerid l.id) whereS
    (if st.editor ≠ lookupD st.original_by_layerid l.id then [w] else [])
    syncAll project st (apply_abstract_ok syncAll l project st.editor hkey)
  rw [hunf]
  refine ⟨hed, hcol, ?_, ?_⟩
  · intro he
    refine ⟨?_, hbe he⟩
    rw [hwc, if_neg (fun h => h he)]
    rfl
  · intro hne
    refine ⟨?_, hbn hne⟩
    rw [hwc, if_pos hne]
    simp [write_count, List.filter_cons, hw]

/-- One column-level update step, analogous to `update_relation_step`. -/
theorem update_column_step (l : Layer) (col : String) (syncAll : Bool)
    (project : List Layer) (rk : Except String PgRows) (st : DialogState)
    (hq : pg_is_query_layer l = false)
    (hsup : is_postgres_layer l = true
      ∨ (is_gpkg_layer l = true ∧ ∃ pt, gpkg_path_and_table l = Except.ok pt)) :
    (update_comment (some l) (TargetKind.column col) syncAll project rk st).1.editor = st.editor
    ∧ (update_comment (some l) (TargetKind.column col) syncAll
        project rk st).1.original_by_layerid = st.original_by_layerid
    ∧ (st.editor = lookupD st.original_column_by_layerid (l.id, col) →
        write_count (update_comment (some l) (TargetKind.column col) syncAll
          project rk st).2 = 0
        ∧ (update_comment (some l) (TargetKind.column col) syncAll
            project rk st).1.original_column_by_layerid = st.original_column_by_layerid)
    ∧ (st.editor ≠ lookupD st.original_column_by_layerid (l.id, col) →
        write_count (update_comment (some l) (TargetKind.column col) syncAll
          project rk st).2 = 1
        ∧ (update_comment (some l) (TargetKind.column col) syncAll
            project rk st).1.original_column_by_layerid
          = setA st.original_column_by_layerid (l.id, col) st.editor) := by
  obtain ⟨w, whereS, hw, hunf⟩ := update_comment_column_unfold l col syncAll project rk st hq hsup
  obtain ⟨hwc, hed, hbe, hbn, hrel⟩ := update_column_finish_spec l col st.editor
    (lookupD st.original_column_by_layerid (l.id, col)) whereS
    (if st.editor ≠ lookupD st.original_column_by_layerid (l.id, col) then [w] else []) st
  rw [hunf]
  refine ⟨hed, hrel, ?_, ?_⟩
  · intro he
    refine ⟨?_, hbe he⟩
    rw [hwc, if_neg (fun h => h he)]
    rfl
  · intro hne
    refine ⟨?_, hbn hne⟩
    rw [hwc, if_pos hne]
    simp [write_count, List.filter_cons, hw]

/-! ## C6 — update idempotence -/

/-- Claim C6: for any text in the editor, running `_update_comment` twice in a
row performs exactly one backend write: the first call writes exactly when the
text differs from the stored baseline and then sets the baseline to the text;
the second call finds the text equal to the updated baseline and performs no
backend write. Holds for both the relation and the column target, for any
supported non-query handle with a decodable address. -/
theorem update_twice_one_write (l : Layer) (target : TargetKind) (syncAll : Bool)
    (project : List Layer) (rk : Except String PgRows) (st : DialogState)
    (hq : pg_is_query_layer l = false)
    (hsup : is_postgres_layer l = true
      ∨ (is_gpkg_layer l = true ∧ ∃ pt, gpkg_path_and_table l = Except.ok pt)) :
    write_count (update_comment (some l) target syncAll project rk
        (update_comment (some l) target syncAll project rk st).1).2 = 0
    ∧ (st.editor ≠ baseline_of st target l →
        write_count (update_comment (some l) target syncAll project rk st).2 = 1
        ∧ baseline_of (update_comment (some l) target syncAll project rk st).1 target l
            = st.editor) := by
  cases target with
  | relation =>
    obtain ⟨hed1, _, heq1, hne1⟩ := update_relation_step l syncAll project rk st hq hsup
    obtain ⟨_, _, heq2, _⟩ := update_relation_step l syncAll project rk
      (update_comment (some l) TargetKind.relation syncAll project rk st).1 hq hsup
    by_cases he : st.editor = lookupD st.original_by_layerid l.id
    · refine ⟨?_, fun hne => absurd he hne⟩
      have hb : (update_comment (some l) TargetKind.relation syncAll
          project rk st).1.editor
          = lookupD (update_comment (some l) TargetKind.relation syncAll
              project rk st).1.original_by_layerid l.id := by
        rw [hed1, (heq1 he).2]
        exact he
      exact (heq2 hb).1
    · have h1 := hne1 he
      refine ⟨?_, fun _ => ⟨h1.1, ?_⟩⟩
      · have hb : (update_comment (some l) TargetKind.relation syncAll
            project rk st).1.editor
            = lookupD (update_comment (some l) TargetKind.relation syncAll
                project rk st).1.original_by_layerid l.id := by
          rw [hed1, h1.2, lookupD_setA]
        exact (heq2 hb).1
      · show lookupD (update_comment (some l) TargetKind.relation syncAll
            project rk st).1.original_by_layerid l.id = st.editor
        rw [h1.2, lookupD_setA]
  | column col =>
    obtain ⟨hed1, _, heq1, hne1⟩ := update_column_step l col syncAll project rk st hq hsup
    obtain ⟨_, _, heq2, _⟩ := update_column_step l col syncAll project rk
      (update_comment (some l) (TargetKind.column col) syncAll project rk st).1 hq hsup
    by_cases he : st.editor = lookupD st.original_column_by_layerid (l.id, col)
    · refine ⟨?_, fun hne => absurd he hne⟩
      have hb : (update_comment (some l) (TargetKind.column col) syncAll
          project rk st).1.editor
          = lookupD (update_comment (some l) (TargetKind.column col) syncAll
              project rk st).1.original_column_by_layerid (l.id, col) := by
        rw [hed1, (heq1 he).2]
        exact he
      exact (heq2 hb).1
    · have h1 := hne1 he
      refine ⟨?_, fun _ => ⟨h1.1, ?_⟩⟩
      · have hb : (update_comment (some l) (TargetKind.column col) syncAll
            project rk st).1.editor
            = lookupD (update_comment (some l) (TargetKind.column col) syncAll
                project rk st).1.original_column_by_layerid (l.id, col) := by
          rw [hed1, h1.2, lookupD_setA]
        exact (heq2 hb).1
      · show lookupD (update_comment (some l) (TargetKind.column col) syncAll
            project rk st).1.original_column_by_layerid (l.id, col) = st.editor
        rw [h1.2, lookupD_setA]

/-- Witness for C6: a GeoPackage layer with pending text `hello` over an empty
baseline; the first call performs one write and the repeated call none. -/
theorem update_twice_one_write_witness :
    stW.editor ≠ baseline_of stW TargetKind.relation gLayer
    ∧ (write_count (update_comment (some gLayer) TargetKind.relation true [gLayer]
          (Except.ok [])
          (update_comment (some gLayer) TargetKind.relation true [gLayer]
            (Except.ok []) stW).1).2 = 0
      ∧ (stW.editor ≠ baseline_of stW TargetKind.relation gLayer →
          write_count (update_comment (some gLayer) TargetKind.relation true [gLayer]
              (Except.ok []) stW).2 = 1
          ∧ baseline_of (update_comment (some gLayer) TargetKind.relation true [gLayer]
              (Except.ok []) stW).1 TargetKind.relation gLayer = stW.editor)) :=
  ⟨by decide,
   update_twice_one_write gLayer TargetKind.relation true [gLayer] (Except.ok []) stW
     (by decide) (Or.inr ⟨by decide, ⟨("d.gpkg", "t"), rfl⟩⟩)⟩

/-! ## C7 — fan-out on a no-change update -/

/-- Claim C7: when the editor text equals the recorded relation baseline and
fan-out is enabled, `_update_comment` performs no backend write yet still
pushes the Abstract to exactly the layers sharing the relation key of the
selected handle. -/
theorem no_change_update_fans_out (l : Layer) (project : List Layer)
    (rk : Except String PgRows) (st : DialogState)
    (hq : pg_is_query_layer l = false)
    (hsup : is_postgres_layer l = true
      ∨ (is_gpkg_layer l = true ∧ ∃ pt, gpkg_path_and_table l = Except.ok pt))
    (heq : st.editor = lookupD st.original_by_layerid l.id) :
    ∃ key, relation_key_from_layer l = Except.ok (some key)
      ∧ (update_comment (some l) TargetKind.relation true project rk st).2
          = (project.filter (shares_key key)).map (fun t => Effect.setAbstract t.id st.editor)
      ∧ write_count (update_comment (some l) TargetKind.relation true project rk st).2 = 0
      ∧ (∀ x, x ∈ project.filter (shares_key key)
          ↔ (x ∈ project ∧ relation_key_from_layer x = Except.ok (some key))) := by
  obtain ⟨key, hkey⟩ := relation_key_ok_of_supported l hq hsup
  obtain ⟨w, whereS, hw, hunf⟩ := update_comment_relation_unfold l true project rk st hq hsup
  have heff : (update_comment (some l) TargetKind.relation true project rk st).2
      = (project.filter (shares_key key)).map (fun t => Effect.setAbstract t.id st.editor) := by
    rw [hunf, if_neg (fun h => h heq)]
    unfold update_relation_finish
    have ha : apply_abstract true l project st.editor
        = Except.ok ((project.filter (shares_key key)).length,
            (project.filter (shares_key key)).map (fun t => Effect.setAbstract t.id st.editor)) := by
      unfold apply_abstract layers_sharing_relation
      rw [hkey]
      simp
    rw [ha]
    by_cases hn : (project.filter (shares_key key)).length = 0 <;> simp [heq, hn]
  refine ⟨key, hkey, heff, ?_, ?_⟩
  · rw [heff]
    exact write_count_abstract_map _ _
  · intro x
    rw [List.mem_filter, shares_key_iff]

/-- Witness for C7: two handles onto the same GeoPackage table, a no-change
update with fan-out enabled pushes the Abstract to both and writes nothing. -/
theorem no_change_update_fans_out_witness :
    ∃ key, relation_key_from_layer gLayer = Except.ok (some key)
      ∧ (update_comment (some gLayer) TargetKind.relation true [gLayer, gLayer2]
            (Except.ok []) stW2).2
          = ([gLayer, gLayer2].filter (shares_key key)).map
              (fun t => Effect.setAbstract t.id stW2.editor)
      ∧ write_count (update_comment (some gLayer) TargetKind.relation true [gLayer, gLayer2]
            (Except.ok []) stW2).2 = 0
      ∧ (∀ x, x ∈ [gLayer, gLayer2].filter (shares_key key)
          ↔ (x ∈ [gLayer, gLayer2] ∧ relation_key_from_layer x = Except.ok (some key))) :=
  no_change_update_fans_out gLayer [gLayer, gLayer2] (Except.ok []) stW2 (by decide)
    (Or.inr ⟨by decide, ⟨("d.gpkg", "t"), rfl⟩⟩) (by decide)

/-! ## C1 — failed load and the edit baseline -/

/-- Claim C1, refuted at a concrete input: with a previously recorded baseline
`old` for the layer, a failed relation fetch clears the editor and surfaces
the error, but also overwrites the baseline entry with the empty string
instead of leaving it unchanged. -/
theorem load_failure_cex :
    lookupD stC1.original_by_layerid "L1" = "old"
    ∧ (load_selected (some gLayer) (Except.error "boom") (Except.ok []) stC1).editor = ""
    ∧ (load_selected (some gLayer) (Except.error "boom") (Except.ok []) stC1).status
        = "Loaded Load error: boom"
    ∧ lookupD (load_selected (some gLayer) (Except.error "boom")
        (Except.ok []) stC1).original_by_layerid "L1" = "" := by
  refine ⟨by decide, by decide, by decide, by decide⟩

/-- C1 (amended): on any fetch failure, for both the relation target and a
column target, the editor is cleared and a load-error status is surfaced, and
the EditBaseline entry for the (handle, target) pair is overwritten with the
empty string — the previous baseline is not preserved. -/
theorem load_failure_overwrites_baseline (l : Layer) (e col : String)
    (rk : Except String PgRows) (st : DialogState)
    (hq : pg_is_query_layer l = false)
    (hsup : is_postgres_layer l = true ∨ is_gpkg_layer l = true) :
    ((load_selected (some l) (Except.error e) rk st).editor = ""
      ∧ (∃ m, (load_selected (some l) (Except.error e) rk st).status
            = "Loaded " ++ ("Load error: " ++ m))
      ∧ lookupD (load_selected (some l) (Except.error e) rk st).original_by_layerid l.id = "")
    ∧ ((load_target (some l) (TargetKind.column col) (Except.error e) rk st).editor = ""
      ∧ (∃ m, (load_target (some l) (TargetKind.column col) (Except.error e) rk st).status
            = "Loaded " ++ ("Load error: " ++ m))
      ∧ lookupD (load_target (some l) (TargetKind.column col)
            (Except.error e) rk st).original_column_by_layerid (l.id, col) = "") := by
  have hne : ∀ m : String, "Load error: " ++ m ≠ "" :=
    fun m => append_ne_empty_left "Load error: " m (by decide)
  rcases hsup with hpg | hg
  · have hguard : lo_is_query (some l) = false := by simp [lo_is_query, hpg, hq]
    refine ⟨⟨?_, ⟨e, ?_⟩, ?_⟩, ⟨?_, ⟨e, ?_⟩, ?_⟩⟩ <;>
      simp [load_selected, load_target, hguard, hpg, hq, hne e, lookupD_setA]
  · have hnp := gpkg_not_pg l hg
    have hguard : lo_is_query (some l) = false := by simp [lo_is_query, hnp]
    cases hdec : gpkg_path_and_table l with
    | error e2 =>
      refine ⟨⟨?_, ⟨e2, ?_⟩, ?_⟩, ⟨?_, ⟨e2, ?_⟩, ?_⟩⟩ <;>
        simp [load_selected, load_target, hguard, hnp, hg, hdec, hne e2, lookupD_setA]
    | ok pt =>
      refine ⟨⟨?_, ⟨e, ?_⟩, ?_⟩, ⟨?_, ⟨e, ?_⟩, ?_⟩⟩ <;>
        simp [load_selected, load_target, hguard, hnp, hg, hdec, hne e, lookupD_setA]

/-- Witness for the amended C1 at a concrete GeoPackage layer and a concrete
failing fetch. -/
theorem load_failure_overwrites_baseline_witness :
    ((load_selected (some gLayer) (Except.error "boom") (Except.ok []) stC1).editor = ""
      ∧ (∃ m, (load_selected (some gLayer) (Except.error "boom") (Except.ok []) stC1).status
            = "Loaded " ++ ("Load error: " ++ m))
      ∧ lookupD (load_selected (some gLayer) (Except.error "boom")
            (Except.ok []) stC1).original_by_layerid gLayer.id = "")
    ∧ ((load_target (some gLayer) (TargetKind.column "c") (Except.error "boom")
          (Except.ok []) stC1).editor = ""
      ∧ (∃ m, (load_target (some gLayer) (TargetKind.column "c") (Except.error "boom")
            (Except.ok []) stC1).status = "Loaded " ++ ("Load error: " ++ m))
      ∧ lookupD (load_target (some gLayer) (TargetKind.column "c") (Except.error "boom")
            (Except.ok []) stC1).original_column_by_layerid (gLayer.id, "c") = "") :=
  load_failure_overwrites_baseline gLayer "boom" "c" (Except.ok []) stC1
    (by decide) (Or.inr (by decide))

/-! ## C4 — query-only classification -/

/-- Claim C4, refuted at a concrete input: the table name `ajoinb` contains
`join` as a case-insensitive substring, so the claimed predicate classifies the
handle query-only, but `_pg_is_query_layer` (which requires ` join ` with
surrounding spaces and accepts `ajoinb` as a plain identifier) does not. -/
theorem query_only_cex :
    pgJoinLayer.pg.schema = "public" ∧ pgJoinLayer.pg.table = "ajoinb"
    ∧ claim_query_only pgJoinLayer.pg.schema pgJoinLayer.pg.table = true
    ∧ pg_is_query_layer pgJoinLayer = false := by
  refine ⟨rfl, rfl, by decide, by decide⟩

/-- C4 (amended): a PostgreSQL handle is classified query-only exactly when its
trimmed schema or table component is empty, or the table starts with a
parenthesis, or its lower-cased text contains `select`, or ` join ` or
` from ` with the surrounding spaces, or either component fails the
`_ident_rx` syntax (a letter or underscore followed by letters, digits,
underscores or dollars); for every query-only handle, the update operation
surfaces the query-layer warning and performs no backend call. -/
theorem query_only_classification_amended (l : Layer) (target : TargetKind)
    (syncAll : Bool) (project : List Layer) (rk : Except String PgRows)
    (st : DialogState) :
    pg_is_query_layer l = amended_query_only l
    ∧ (is_postgres_layer l = true → pg_is_query_layer l = true →
        update_comment (some l) target syncAll project rk st
          = ({ st with warning := some "PostgreSQL query layers (JOINs/subqueries) have no single base relation to comment." },
             [])) := by
  constructor
  · simp only [pg_is_query_layer, amended_query_only]
    cases hp : is_postgres_layer l
    · simp
    · simp only [Bool.not_true, Bool.true_and, Bool.false_eq_true, if_false]
      cases he1 : py_isempty (py_strip l.pg.schema) <;>
        cases he2 : py_isempty (py_strip l.pg.table) <;>
        cases hs1 : py_startswith (py_strip l.pg.table) "(" <;>
        cases hs2 : strContains (py_lower (py_strip l.pg.table)) "select" <;>
        cases hs3 : strContains (py_lower (py_strip l.pg.table)) " join " <;>
        cases hs4 : strContains (py_lower (py_strip l.pg.table)) " from " <;>
        cases hi1 : matchesIdent (py_strip l.pg.schema) <;>
        cases hi2 : matchesIdent (py_strip l.pg.table) <;>
        simp [he1, he2, hs1, hs2, hs3, hs4, hi1, hi2]
  · intro hp hq
    simp [update_comment, hp, hq]

/-- Witness for the amended C4 at a concrete subquery layer. -/
theorem query_only_classification_witness :
    pg_is_query_layer queryLayer = amended_query_only queryLayer
    ∧ update_comment (some queryLayer) TargetKind.relation true [] (Except.ok []) emptyState
        = ({ emptyState with warning := some "PostgreSQL query layers (JOINs/subqueries) have no single base relation to comment." },
           []) :=
  ⟨(query_only_classification_amended queryLayer TargetKind.relation true []
      (Except.ok []) emptyState).1,
   (query_only_classification_amended queryLayer TargetKind.relation true []
      (Except.ok []) emptyState).2 (by decide) (by decide)⟩

/-! ## C5 — fail-closed key resolution -/

/-- Claim C5, refuted at a concrete input: for a GeoPackage-classified handle
whose decoded uri lacks a table name, `_relation_key_from_layer` raises and
`_layers_sharing_relation` propagates the exception for its input handle,
instead of yielding key none and the handle alone. -/
theorem resolve_key_raises_cex :
    relation_key_from_layer badGpkgLayer
        = Except.error "Could not parse GPKG path/table from layer source."
    ∧ layers_sharing_relation badGpkgLayer [badGpkgLayer]
        = Except.error "Could not parse GPKG path/table from layer source."
    ∧ relation_key_from_layer badGpkgLayer ≠ Except.ok none
    ∧ layers_sharing_relation badGpkgLayer [badGpkgLayer] ≠ Except.ok [badGpkgLayer] := by
  refine ⟨rfl, rfl, ?_, ?_⟩ <;> intro h <;> exact Except.noConfusion h

/-- C5 (amended): key resolution fails closed for every non-GeoPackage handle
(including every Postgres handle, whose classification guards catch their own
exceptions), and the outcomes key-none (siblings = the handle alone) and
key-some (siblings = the filtered project scan, which swallows scan-side
errors) never raise; but for a GeoPackage-classified handle whose path/table
cannot be decoded, `_relation_key_from_layer` raises the decode error and
`_layers_sharing_relation` propagates it for its input handle. -/
theorem resolve_key_fail_closed_amended (l : Layer) (project : List Layer) :
    (is_gpkg_layer l = false → ∃ k, relation_key_from_layer l = Except.ok k)
    ∧ (∀ e, relation_key_from_layer l = Except.error e →
        is_gpkg_layer l = true ∧ gpkg_path_and_table l = Except.error e
          ∧ layers_sharing_relation l project = Except.error e)
    ∧ (relation_key_from_layer l = Except.ok none →
        layers_sharing_relation l project = Except.ok [l])
    ∧ (∀ key, relation_key_from_layer l = Except.ok (some key) →
        layers_sharing_relation l project = Except.ok (project.filter (shares_key key))) := by
  refine ⟨?_, ?_, ?_, ?_⟩
  · intro hg
    by_cases hpg : (is_postgres_layer l && !(pg_is_query_layer l)) = true
    · exact ⟨some (RelationKey.pg (normalize_host l.pg.host) l.pg.port
        (py_lower l.pg.database) l.pg.schema l.pg.table),
        by simp [relation_key_from_layer, hpg]⟩
    · exact ⟨none, by simp [relation_key_from_layer, hpg, hg]⟩
  · intro e he
    by_cases hpg : (is_postgres_layer l && !(pg_is_query_layer l)) = true
    · simp [relation_key_from_layer, hpg] at he
    · by_cases hg : is_gpkg_layer l = true
      · cases hdec : gpkg_path_and_table l with
        | ok pt => simp [relation_key_from_layer, hpg, hg, hdec] at he
        | error e2 =>
          simp [relation_key_from_layer, hpg, hg, hdec] at he
          refine ⟨hg, by rw [he], ?_⟩
          unfold layers_sharing_relation
          rw [show relation_key_from_layer l = Except.error e from by
            simp [relation_key_from_layer, hpg, hg, hdec, he]]
      · simp [relation_key_from_layer, hpg, hg] at he
  · intro h
    unfold layers_sharing_relation
    rw [h]
  · intro key h
    unfold layers_sharing_relation
    rw [h]

/-- Witness for the amended C5 at the undecodable GeoPackage handle. -/
theorem resolve_key_fail_closed_witness :
    is_gpkg_layer badGpkgLayer = true
    ∧ gpkg_path_and_table badGpkgLayer
        = Except.error "Could not parse GPKG path/table from layer source."
    ∧ layers_sharing_relation badGpkgLayer [badGpkgLayer]
        = Except.error "Could not parse GPKG path/table from layer source." :=
  (resolve_key_fail_closed_amended badGpkgLayer [badGpkgLayer]).2.1
    "Could not parse GPKG path/table from layer source." rfl

end TCN
